import Mathlib

/-!
Shallow embedding of the waitlist-position reconciler of the mtlockyer
repository, together with proofs about it.

The embedded code is `src/main.py` (functions `save_waitlist_posn`,
`get_saved_waitlist_data`, `get_saved_waitlist_posn`,
`get_saved_waitlist_datetime`, `compare_waitlist_posns`, `GetSecretWrapper.
get_secret`, `_check_logged_in`, the Lambda entry point of
`lambda_handler.py`), plus the constants of `constants.py`.  The older
`mtlockyer/main.py` variant of `compare_waitlist_posns` is the
file-backend-only specialization of the same logic.

Modelling conventions:
  * Python exceptions become an `Except` result carrying the process state
    at the moment of the raise (Python state changes before a raise persist).
  * The two storage backends (one JSON file, one S3 bucket object) are two
    `Option WlRecord` slots of a `Backends` structure; `none` models
    "file absent" / "object key absent".
  * The module-level shared dictionary `DataFileDictFormat.DEFAULT_WL_DICT.
    value`, which the code mutates in place, is an explicit `defaultDict`
    field of the process state.
  * Python `int(x)` on a string is modelled for ASCII decimal text with
    optional surrounding whitespace and an optional sign (underscore digit
    separators and non-ASCII digits are outside the inputs this program
    meets and are not modelled).
  * `datetime.strftime` / `datetime.strptime` are modelled for the one
    fixed format the program uses, DT_FORMAT = "%Y-%m-%d %H:%M:%S.%f %Z%z",
    restricted to UTC-aware datetimes, which is all the program produces:
    the rendered text always ends in "UTC+0000".
-/

/-- Kinds of Python exceptions the embedded code can raise. -/
inductive PyErr where
  | valueError
  | clientError
  | typeError
  | unknownError
deriving DecidableEq

/-- A Python value sitting in the `waitlist_position` field: the code stores
either an `int` (the default record's -1, or a re-saved old value) or a
`str` (the text scraped from the page). -/
inductive PosnVal where
  | i (n : Int)
  | s (t : String)
deriving DecidableEq

/-- The persisted waitlist dictionary: exactly the three keys written by
`save_waitlist_posn`. -/
structure WlRecord where
  waitlist_datetime : String
  last_updated : String
  waitlist_position : PosnVal
deriving DecidableEq

/-- The two storage slots: the JSON file and the S3 bucket object. -/
structure Backends where
  file : Option WlRecord
  s3 : Option WlRecord
deriving DecidableEq

/-- Process-level state: the backends plus the shared module-level default
dictionary constant (`DataFileDictFormat.DEFAULT_WL_DICT.value`), which the
source mutates in place. -/
structure ProcState where
  backends : Backends
  defaultDict : WlRecord
deriving DecidableEq

/-- `DataFileDictFormat.DEFAULT_WL_DICT` of `src/constants.py`: position -1,
empty timestamp strings. -/
def DEFAULT_WL_DICT : WlRecord :=
  { waitlist_datetime := ("")
    last_updated := ("")
    waitlist_position := PosnVal.i (-1) }

/-! ## Python `int()` on strings -/

/-- ASCII decimal digit test. -/
def isPyDigit (c : Char) : Bool :=
  48 ≤ c.toNat && c.toNat ≤ 57

/-- Value of an ASCII digit character. -/
def digitVal (c : Char) : Nat := c.toNat - 48

/-- Left-to-right accumulation of a digit list. -/
def digitsToNat : List Char → Nat → Nat
  | [], acc => acc
  | c :: cs, acc => digitsToNat cs (acc * 10 + digitVal c)

/-- Whitespace stripped by Python `int()`. -/
def isPySpace (c : Char) : Bool :=
  c = ' ' || c = '\t' || c = '\n' || c = '\r'

/-- Strip leading and trailing whitespace. -/
def stripSpace (cs : List Char) : List Char :=
  ((cs.dropWhile isPySpace).reverse.dropWhile isPySpace).reverse

/-- Core of the Python `int()` model on a character list. -/
def pyIntChars (cs : List Char) : Option Int :=
  match stripSpace cs with
  | [] => none
  | '+' :: ds =>
      if ds ≠ [] ∧ ds.all isPyDigit then some (digitsToNat ds 0) else none
  | '-' :: ds =>
      if ds ≠ [] ∧ ds.all isPyDigit then some (-(digitsToNat ds 0 : Int))
      else none
  | ds => if ds.all isPyDigit then some (digitsToNat ds 0) else none

/-- Python `int(s)` for a string: `some n` on success, `none` models the
ValueError raise. -/
def pyInt (s : String) : Option Int := pyIntChars s.data

/-- Python `int(x)` for a value that is already an int or a string. -/
def pyIntVal : PosnVal → Option Int
  | PosnVal.i n => some n
  | PosnVal.s t => pyInt t

/-! ## The fixed datetime format DT_FORMAT = "%Y-%m-%d %H:%M:%S.%f %Z%z" -/

/-- A timezone-aware UTC datetime, the only kind the program builds
(`dt.now().astimezone(tz.utc)` or `strptime` of text this program wrote). -/
structure UTCDatetime where
  year : Nat
  month : Nat
  day : Nat
  hour : Nat
  minute : Nat
  second : Nat
  microsecond : Nat
deriving DecidableEq

/-- Gregorian leap-year test, as Python's `datetime` uses. -/
def isLeapYear (y : Nat) : Bool :=
  (y % 4 = 0 && y % 100 ≠ 0) || y % 400 = 0

/-- Days in a month. -/
def daysInMonth (y m : Nat) : Nat :=
  if m = 2 then (if isLeapYear y then 29 else 28)
  else if m = 4 || m = 6 || m = 9 || m = 11 then 30
  else 31

/-- Field-range validity, matching Python `datetime`'s constructor checks. -/
def validDT (d : UTCDatetime) : Bool :=
  1 ≤ d.year && d.year ≤ 9999 &&
  1 ≤ d.month && d.month ≤ 12 &&
  1 ≤ d.day && d.day ≤ daysInMonth d.year d.month &&
  d.hour ≤ 23 && d.minute ≤ 59 && d.second ≤ 59 &&
  d.microsecond ≤ 999999

/-- Zero-padded fixed-width decimal rendering, most significant digit
first, as strftime's %Y, %m, %d, %H, %M, %S, %f produce. -/
def padChars : Nat → Nat → List Char
  | 0, _ => []
  | w + 1, v => padChars w (v / 10) ++ [Char.ofNat (48 + v % 10)]

/-- The character list strftime(DT_FORMAT) produces for a UTC-aware
datetime: zero-padded fields, then " UTC+0000" from %Z%z. -/
def strftimeChars (d : UTCDatetime) : List Char :=
  padChars 4 d.year ++ '-' ::
  (padChars 2 d.month ++ '-' ::
  (padChars 2 d.day ++ ' ' ::
  (padChars 2 d.hour ++ ':' ::
  (padChars 2 d.minute ++ ':' ::
  (padChars 2 d.second ++ '.' ::
  (padChars 6 d.microsecond ++ ' ' :: 'U' :: 'T' :: 'C' :: '+' :: '0' :: '0' :: '0' :: '0' :: []))))))

/-- `d.strftime(DT_FORMAT)` for a UTC-aware datetime. -/
def strftimeDT (d : UTCDatetime) : String := String.mk (strftimeChars d)

/-- Read exactly `w` ASCII digits, extending accumulator `acc`. -/
def readFixed : Nat → Nat → List Char → Option (Nat × List Char)
  | 0, acc, cs => some (acc, cs)
  | w + 1, acc, c :: cs =>
      if isPyDigit c then readFixed w (acc * 10 + digitVal c) cs else none
  | _ + 1, _, [] => none

/-- Require one literal character. -/
def expectChar (c : Char) : List Char → Option (List Char)
  | d :: cs => if d = c then some cs else none
  | [] => none

/-- `datetime.strptime(s, DT_FORMAT)` on a character list, restricted to
the text this program writes (zone rendered as "UTC+0000"); `none` models
the ValueError raise. -/
def strptimeChars (cs : List Char) : Option UTCDatetime :=
  (readFixed 4 0 cs).bind (fun py =>
  (expectChar '-' py.2).bind (fun c1 =>
  (readFixed 2 0 c1).bind (fun pm =>
  (expectChar '-' pm.2).bind (fun c2 =>
  (readFixed 2 0 c2).bind (fun pd =>
  (expectChar ' ' pd.2).bind (fun c3 =>
  (readFixed 2 0 c3).bind (fun ph =>
  (expectChar ':' ph.2).bind (fun c4 =>
  (readFixed 2 0 c4).bind (fun pmi =>
  (expectChar ':' pmi.2).bind (fun c5 =>
  (readFixed 2 0 c5).bind (fun ps =>
  (expectChar '.' ps.2).bind (fun c6 =>
  (readFixed 6 0 c6).bind (fun pf =>
  if pf.2 = ' ' :: 'U' :: 'T' :: 'C' :: '+' :: '0' :: '0' :: '0' :: '0' :: [] then
    let d : UTCDatetime :=
      { year := py.1, month := pm.1, day := pd.1, hour := ph.1,
        minute := pmi.1, second := ps.1, microsecond := pf.1 }
    if validDT d then some d else none
  else none)))))))))))))

/-- `datetime.strptime(s, DT_FORMAT)` on a string. -/
def strptimeDT (s : String) : Option UTCDatetime := strptimeChars s.data

/-! ## Excluded collaborators touched by the error-propagation claims -/

/-- What AWS returns to `GetSecretWrapper.get_secret`. -/
inductive SecretResponse where
  | secretString (s : String)
  | resourceNotFound
  | otherFailure
deriving DecidableEq

/-- `GetSecretWrapper.get_secret` of `src/main.py` / `src/secretswrapper.py`:
a found secret is returned; a `ResourceNotFoundException` is caught and a
message string is returned NORMALLY in place of the secret; any other
exception is re-raised. -/
def get_secret (secret_name : String) (resp : SecretResponse) :
    Except PyErr String :=
  match resp with
  | SecretResponse.secretString s => Except.ok s
  | SecretResponse.resourceNotFound =>
      Except.ok (("The requested secret ") ++ secret_name ++ (" was not found."))
  | SecretResponse.otherFailure => Except.error PyErr.unknownError

/-- `_check_logged_in` of `src/main.py`: a `TimeoutException` while waiting
for the logged-in marker is caught and turned into a `False` return; it is
never re-raised. -/
def _check_logged_in (timedOut : Bool) : Bool :=
  if timedOut then false else true

/-! ## The reconciler -/

/-- The backend slot the code's `if file_path is not None` dispatch selects. -/
def backendGet (useFile : Bool) (st : ProcState) : Option WlRecord :=
  if useFile then st.backends.file else st.backends.s3

/-- `save_waitlist_posn` of `src/main.py`: build the three-key dict and
write it to the file when `file_path` is not None, else put it to the S3
object.  The `s3_bucket_object` argument only names which object; the state
carries the single slot it denotes. -/
def save_waitlist_posn (posn : PosnVal) (wl_date last_update : String)
    (file_path : Option Unit) (_s3_bucket_object : Option Unit)
    (st : ProcState) : ProcState :=
  let wl_dict : WlRecord :=
    { waitlist_datetime := wl_date
      last_updated := last_update
      waitlist_position := posn }
  if file_path.isSome then
    { st with backends := { st.backends with file := some wl_dict } }
  else
    { st with backends := { st.backends with s3 := some wl_dict } }

/-- `get_saved_waitlist_data` of `src/main.py`.  File branch
(`__get_waitlist_from_file`): a missing file is caught and the shared
default dictionary is assigned (not copied) and mutated in place, its two
timestamp fields set to a fresh `now`.  S3 branch (`__get_waitlist_from_s3`):
a missing object makes the `get` raise a ClientError which propagates —
no default is synthesized on this branch. -/
def get_saved_waitlist_data (file_path : Option Unit)
    (_s3_bucket_object : Option Unit) (nowLoad : String) (st : ProcState) :
    Except (PyErr × ProcState) (WlRecord × ProcState) :=
  if file_path.isSome then
    match st.backends.file with
    | some wl_dict => Except.ok (wl_dict, st)
    | none =>
        let d : WlRecord :=
          { st.defaultDict with
              waitlist_datetime := nowLoad
              last_updated := nowLoad }
        Except.ok (d, { st with defaultDict := d })
  else
    match st.backends.s3 with
    | some wl_dict => Except.ok (wl_dict, st)
    | none => Except.error (PyErr.clientError, st)

/-- `compare_waitlist_posns` of `src/main.py`: load the stored record
(file wins when both references are given), parse observed and stored
positions with `int()`, compare; on change save the observed text with both
timestamps set to this pass's now; on no change re-save the stored position
with the stored `waitlist_datetime` re-parsed and re-rendered through
DT_FORMAT and `last_updated` set to now.  `nowLoad` is the `now` the
default-record path of the load computes; `dt_now` is the one this function
computes before saving. -/
def compare_waitlist_posns (posn : String) (file_path : Option Unit)
    (s3_bucket_object : Option Unit) (nowLoad dt_now : String)
    (st : ProcState) : Except (PyErr × ProcState) (Bool × ProcState) :=
  match get_saved_waitlist_data file_path s3_bucket_object nowLoad st with
  | Except.error e => Except.error e
  | Except.ok (wl_data, st1) =>
    match pyInt posn with
    | none => Except.error (PyErr.valueError, st1)
    | some pNew =>
      match pyIntVal wl_data.waitlist_position with
      | none => Except.error (PyErr.valueError, st1)
      | some pOld =>
        let has_changed : Bool := decide (pNew ≠ pOld)
        if has_changed then
          Except.ok (true,
            save_waitlist_posn (PosnVal.s posn) dt_now dt_now
              file_path s3_bucket_object st1)
        else
          match strptimeDT wl_data.waitlist_datetime with
          | none => Except.error (PyErr.valueError, st1)
          | some d =>
            Except.ok (false,
              save_waitlist_posn wl_data.waitlist_position (strftimeDT d)
                dt_now file_path s3_bucket_object st1)

/-! ## The Lambda entry point of `src/lambda_handler.py` -/

/-- The Python values relevant to the tuple-unpacking at the call site. -/
inductive PyVal where
  | vbool (b : Bool)
  | vtuple2 (x y : PyVal)
deriving DecidableEq

/-- Python unpacking `a, b = v`: succeeds on a 2-tuple; a bool is not
iterable, so unpacking it raises a TypeError. -/
def unpack2 : PyVal → Except PyErr (PyVal × PyVal)
  | PyVal.vtuple2 x y => Except.ok (x, y)
  | PyVal.vbool _ => Except.error PyErr.typeError

/-- `lambda_handler` of `src/lambda_handler.py`, from the reconciliation
step on (the earlier secret/login/scrape steps are external collaborators):
it calls `compare_waitlist_posns` with only an `s3_bucket_object`, then
executes `has_changed, wl_posn_old = compare_waitlist_posns(...)` — an
unpacking of the returned value into two names.  The returned Bool records
whether the notification e-mail step was reached and taken. -/
def lambda_handler (wl_posn : String) (nowLoad dt_now : String)
    (st : ProcState) : Except (PyErr × ProcState) (Bool × ProcState) :=
  match compare_waitlist_posns wl_posn none (some ()) nowLoad dt_now st with
  | Except.error e => Except.error e
  | Except.ok (res, st1) =>
    match unpack2 (PyVal.vbool res) with
    | Except.error e => Except.error (e, st1)
    | Except.ok (hc, _wl_posn_old) =>
      match hc with
      | PyVal.vbool b => Except.ok (b, st1)
      | PyVal.vtuple2 _ _ => Except.ok (false, st1)

/-! ## Serialized record shape (the JSON body `json.dump` writes) -/

/-- A flat JSON value as it appears in the persisted dict. -/
inductive Jv where
  | jstr (s : String)
  | jint (n : Int)
deriving DecidableEq

/-- How `json.dump` renders the position value: an int stays an int, a
string stays a string. -/
def jvOfPosn : PosnVal → Jv
  | PosnVal.i n => Jv.jint n
  | PosnVal.s t => Jv.jstr t

/-- Is this JSON value an integer? -/
def isIntJv : Jv → Bool
  | Jv.jint _ => true
  | Jv.jstr _ => false

/-- The flat key/value body `save_waitlist_posn` serializes: exactly the
three keys, in the order the source dict literal lists them. -/
def serializeRecord (r : WlRecord) : List (String × Jv) :=
  [(("waitlist_datetime"), Jv.jstr r.waitlist_datetime),
   (("last_updated"), Jv.jstr r.last_updated),
   (("waitlist_position"), jvOfPosn r.waitlist_position)]

/-- Key lookup in the flat body. -/
def lookupJv (k : String) : List (String × Jv) → Option Jv
  | [] => none
  | (k2, v) :: rest => if k2 = k then some v else lookupJv k rest

/-- Reading a position value back from JSON. -/
def posnOfJv : Jv → PosnVal
  | Jv.jint n => PosnVal.i n
  | Jv.jstr t => PosnVal.s t

/-- `json.load` of a persisted body back into the record the reconciler
reads: the three keys must be present and the timestamps must be strings. -/
def deserializeRecord (l : List (String × Jv)) : Option WlRecord :=
  (lookupJv ("waitlist_datetime") l).bind (fun v1 =>
  (lookupJv ("last_updated") l).bind (fun v2 =>
  (lookupJv ("waitlist_position") l).bind (fun v3 =>
    match v1, v2 with
    | Jv.jstr wd, Jv.jstr lu =>
        some { waitlist_datetime := wd
               last_updated := lu
               waitlist_position := posnOfJv v3 }
    | _, _ => none)))

/-! ## Helper state functions and concrete states -/

/-- Replace the S3 slot. -/
def setS3 (x : Option WlRecord) (st : ProcState) : ProcState :=
  { st with backends := { st.backends with s3 := x } }

/-- The process state a run ends in, whether it raised or returned. -/
def stateOf : Except (PyErr × ProcState) (Bool × ProcState) → ProcState
  | Except.error (_, st) => st
  | Except.ok (_, st) => st

/-- A fresh process: both backends empty, the default dict untouched. -/
def freshState : ProcState :=
  { backends := { file := none, s3 := none }, defaultDict := DEFAULT_WL_DICT }

/-- `apply_map` over the state in a run result, leaving the verdict alone. -/
def mapStateRes (f : ProcState → ProcState) :
    Except (PyErr × ProcState) (Bool × ProcState) →
    Except (PyErr × ProcState) (Bool × ProcState)
  | Except.error (e, st) => Except.error (e, f st)
  | Except.ok (b, st) => Except.ok (b, f st)

/-- The record the default-file path builds: the shared default dictionary
with both timestamp fields overwritten in place. -/
def mutatedDefault (nowLoad : String) : WlRecord :=
  { DEFAULT_WL_DICT with waitlist_datetime := nowLoad, last_updated := nowLoad }

/-- A concrete valid datetime used to instantiate theorems. -/
def dtSample : UTCDatetime :=
  { year := 2026, month := 2, day := 14, hour := 9, minute := 30,
    second := 59, microsecond := 123456 }

/-- Its DT_FORMAT rendering. -/
def tsSample : String := strftimeDT dtSample

/-- A concrete stored record as an earlier pass would have written it:
canonical timestamps, position the scraped text "12". -/
def sampleRec : WlRecord :=
  { waitlist_datetime := tsSample
    last_updated := tsSample
    waitlist_position := PosnVal.s ("12") }

/-- A process whose file backend holds `sampleRec`. -/
def sampleFileState : ProcState :=
  { backends := { file := some sampleRec, s3 := none }
    defaultDict := DEFAULT_WL_DICT }

/-- A process whose S3 backend holds `sampleRec`. -/
def sampleS3State : ProcState :=
  { backends := { file := none, s3 := some sampleRec }
    defaultDict := DEFAULT_WL_DICT }

/-- The part of the process state the file-backend path of the reconciler
can see or touch: the file slot and the shared default dictionary. -/
structure FileView where
  file : Option WlRecord
  dd : WlRecord
deriving DecidableEq

/-- The file view of a process state. -/
def viewOf (st : ProcState) : FileView :=
  { file := st.backends.file, dd := st.defaultDict }

/-- Graft a file view back onto a process state, leaving the S3 slot as it
was. -/
def withView (st : ProcState) (v : FileView) : ProcState :=
  { backends := { file := v.file, s3 := st.backends.s3 }
    defaultDict := v.dd }

/-- The reconciler's file-backend behavior expressed on the file view
alone; `compare_file_view` below proves the actual `compare_waitlist_posns`
factors through it, which is what "the S3 backend is never read or
written" means for the file path. -/
def fileCompare (posn nowLoad dt_now : String) (v : FileView) :
    Except (PyErr × FileView) (Bool × FileView) :=
  match
    (match v.file with
     | some r => (r, v)
     | none =>
         let d : WlRecord :=
           { v.dd with waitlist_datetime := nowLoad, last_updated := nowLoad }
         (d, { file := v.file, dd := d })) with
  | (wl, v1) =>
    match pyInt posn with
    | none => Except.error (PyErr.valueError, v1)
    | some pNew =>
      match pyIntVal wl.waitlist_position with
      | none => Except.error (PyErr.valueError, v1)
      | some pOld =>
        if decide (pNew ≠ pOld) then
          Except.ok (true,
            { file := some
                { waitlist_datetime := dt_now
                  last_updated := dt_now
                  waitlist_position := PosnVal.s posn }
              dd := v1.dd })
        else
          match strptimeDT wl.waitlist_datetime with
          | none => Except.error (PyErr.valueError, v1)
          | some d =>
              Except.ok (false,
                { file := some
                    { waitlist_datetime := strftimeDT d
                      last_updated := dt_now
                      waitlist_position := wl.waitlist_position }
                  dd := v1.dd })

/-- Push a file-view result back into a full process state. -/
def mapViewRes (st : ProcState) :
    Except (PyErr × FileView) (Bool × FileView) →
    Except (PyErr × ProcState) (Bool × ProcState)
  | Except.error (e, v) => Except.error (e, withView st v)
  | Except.ok (b, v) => Except.ok (b, withView st v)

/-! ## Helper lemmas: digit rendering and parsing -/

theorem digitVal_ofNat (k : Nat) (h : k < 10) :
    digitVal (Char.ofNat (48 + k)) = k := by
  interval_cases k <;> decide

theorem isPyDigit_ofNat (k : Nat) (h : k < 10) :
    isPyDigit (Char.ofNat (48 + k)) = true := by
  interval_cases k <;> decide

theorem readFixed_exact_append (w1 : Nat) :
    ∀ (w2 acc r : Nat) (xs ys : List Char),
      readFixed w1 acc xs = some (r, []) →
      readFixed (w1 + w2) acc (xs ++ ys) = readFixed w2 r ys := by
  induction w1 with
  | zero =>
      intro w2 acc r xs ys h
      simp only [readFixed, Option.some.injEq, Prod.mk.injEq] at h
      obtain ⟨h1, h2⟩ := h
      subst h1; subst h2
      simp
  | succ w ih =>
      intro w2 acc r xs ys h
      cases xs with
      | nil => simp [readFixed] at h
      | cons c cs =>
          simp only [readFixed] at h
          by_cases hc : isPyDigit c
          · rw [if_pos hc] at h
            have hw : w + 1 + w2 = (w + w2) + 1 := by omega
            rw [hw]
            simp only [List.cons_append, readFixed, if_pos hc]
            exact ih w2 _ r cs ys h
          · rw [if_neg hc] at h
            exact absurd h (by simp)

theorem readFixed_padChars (w : Nat) :
    ∀ (acc v : Nat), v < 10 ^ w →
      readFixed w acc (padChars w v) = some (acc * 10 ^ w + v, []) := by
  induction w with
  | zero =>
      intro acc v h
      have hv : v = 0 := by omega
      subst hv
      simp [readFixed, padChars]
  | succ w ih =>
      intro acc v h
      have hdiv : v / 10 < 10 ^ w := by
        apply Nat.div_lt_of_lt_mul
        have hp : (10 : ℕ) ^ (w + 1) = 10 * 10 ^ w := by ring
        omega
      have h1 := ih acc (v / 10) hdiv
      have h2 := readFixed_exact_append w 1 acc (acc * 10 ^ w + v / 10)
        (padChars w (v / 10)) [Char.ofNat (48 + v % 10)] h1
      have hshape :
          padChars (w + 1) v
            = padChars w (v / 10) ++ [Char.ofNat (48 + v % 10)] := rfl
      rw [hshape, h2]
      have hm : v % 10 < 10 := Nat.mod_lt _ (by norm_num)
      simp only [readFixed, isPyDigit_ofNat _ hm, if_pos, digitVal_ofNat _ hm]
      congr 1
      congr 1
      rw [pow_succ, ← mul_assoc]
      have := Nat.div_add_mod v 10
      generalize acc * 10 ^ w = t
      omega

theorem readFixed_padChars_append (w acc v : Nat) (rest : List Char)
    (h : v < 10 ^ w) :
    readFixed w acc (padChars w v ++ rest) = some (acc * 10 ^ w + v, rest) := by
  have h1 := readFixed_padChars w acc v h
  have h2 := readFixed_exact_append w 0 acc (acc * 10 ^ w + v)
    (padChars w v) rest h1
  simpa [readFixed] using h2

theorem daysInMonth_le_31 (y m : Nat) : daysInMonth y m ≤ 31 := by
  unfold daysInMonth
  split_ifs <;> omega

set_option maxHeartbeats 2000000 in
/-- Core round-trip: parsing the text `strftime(DT_FORMAT)` produced
recovers the datetime exactly. -/
theorem strptimeChars_strftimeChars (d : UTCDatetime) (h : validDT d = true) :
    strptimeChars (strftimeChars d) = some d := by
  have hb := h
  simp only [validDT, Bool.and_eq_true, decide_eq_true_eq] at hb
  obtain ⟨⟨⟨⟨⟨⟨⟨⟨⟨hy1, hy2⟩, hm1⟩, hm2⟩, hd1⟩, hd2⟩, hh⟩, hmi⟩, hs⟩, hus⟩ := hb
  have by4 : d.year < 10 ^ 4 := by norm_num; omega
  have bm2 : d.month < 10 ^ 2 := by norm_num; omega
  have bd2 : d.day < 10 ^ 2 := by
    have := daysInMonth_le_31 d.year d.month
    norm_num; omega
  have bh2 : d.hour < 10 ^ 2 := by norm_num; omega
  have bmi2 : d.minute < 10 ^ 2 := by norm_num; omega
  have bs2 : d.second < 10 ^ 2 := by norm_num; omega
  have bf6 : d.microsecond < 10 ^ 6 := by norm_num; omega
  unfold strptimeChars strftimeChars
  rw [readFixed_padChars_append 4 0 d.year _ by4]
  simp [expectChar]
  rw [readFixed_padChars_append 2 0 d.month _ bm2]
  simp [expectChar]
  rw [readFixed_padChars_append 2 0 d.day _ bd2]
  simp [expectChar]
  rw [readFixed_padChars_append 2 0 d.hour _ bh2]
  simp [expectChar]
  rw [readFixed_padChars_append 2 0 d.minute _ bmi2]
  simp [expectChar]
  rw [readFixed_padChars_append 2 0 d.second _ bs2]
  simp [expectChar]
  rw [readFixed_padChars_append 6 0 d.microsecond _ bf6]
  simp [expectChar]
  simp [h]

theorem strptimeDT_strftimeDT (d : UTCDatetime) (h : validDT d = true) :
    strptimeDT (strftimeDT d) = some d := by
  have : (strftimeDT d).data = strftimeChars d := rfl
  rw [strptimeDT, this]
  exact strptimeChars_strftimeChars d h

/-! ## Helper lemmas about the reconciler -/

theorem get_saved_of_backendGet_some (file_path s3o : Option Unit)
    (nowLoad : String) (st : ProcState) (r : WlRecord)
    (hget : backendGet file_path.isSome st = some r) :
    get_saved_waitlist_data file_path s3o nowLoad st = Except.ok (r, st) := by
  unfold backendGet at hget
  unfold get_saved_waitlist_data
  cases file_path <;> simp_all

theorem backendGet_save (posn : PosnVal) (wl_date last_update : String)
    (file_path s3o : Option Unit) (st : ProcState) :
    backendGet file_path.isSome
        (save_waitlist_posn posn wl_date last_update file_path s3o st)
      = some { waitlist_datetime := wl_date
               last_updated := last_update
               waitlist_position := posn } := by
  unfold backendGet save_waitlist_posn
  cases file_path <;> simp

theorem get_saved_preserves_backends (file_path s3o : Option Unit)
    (nowLoad : String) (st : ProcState) (wl : WlRecord) (st1 : ProcState)
    (h : get_saved_waitlist_data file_path s3o nowLoad st = Except.ok (wl, st1)) :
    st1.backends = st.backends := by
  unfold get_saved_waitlist_data at h
  split at h <;> split at h <;> simp_all
  rcases h with ⟨h1, h2⟩
  subst h2
  rfl


/-! ## Claims -/

/-- C1: for every stored record whose position parses as integer p1 and
every observed position string parsing as integer p2 with p1 ≠ p2,
`compare_waitlist_posns` returns true and persists a new record whose
position equals the observed position and whose changed_at
(`waitlist_datetime`) and checked_at (`last_updated`) both equal the single
now timestamp computed during that pass. -/
theorem spec_c1_changed (posn : String) (p1 p2 : Int) (r : WlRecord)
    (file_path s3o : Option Unit) (nowLoad dt_now : String) (st : ProcState)
    (hget : backendGet file_path.isSome st = some r)
    (hp1 : pyIntVal r.waitlist_position = some p1)
    (hp2 : pyInt posn = some p2)
    (hne : p1 ≠ p2) :
    compare_waitlist_posns posn file_path s3o nowLoad dt_now st
      = Except.ok (true,
          save_waitlist_posn (PosnVal.s posn) dt_now dt_now file_path s3o st) ∧
    backendGet file_path.isSome
        (save_waitlist_posn (PosnVal.s posn) dt_now dt_now file_path s3o st)
      = some { waitlist_datetime := dt_now
               last_updated := dt_now
               waitlist_position := PosnVal.s posn } := by
  refine ⟨?_, backendGet_save _ _ _ _ _ _⟩
  have hload := get_saved_of_backendGet_some file_path s3o nowLoad st r hget
  unfold compare_waitlist_posns
  rw [hload]
  have hne' : p2 ≠ p1 := fun hEq => hne hEq.symm
  simp [hp2, hp1, hne']

/-- C1 witness: stored position "12", observed "7". -/
theorem spec_c1_changed_witness :
    backendGet (some () : Option Unit).isSome sampleFileState = some sampleRec ∧
    pyIntVal sampleRec.waitlist_position = some 12 ∧
    pyInt ("7") = some 7 ∧
    (12 : Int) ≠ 7 ∧
    (compare_waitlist_posns ("7") (some ()) none tsSample ("T1") sampleFileState
       = Except.ok (true,
           save_waitlist_posn (PosnVal.s ("7")) ("T1") ("T1")
             (some ()) none sampleFileState) ∧
     backendGet (some () : Option Unit).isSome
         (save_waitlist_posn (PosnVal.s ("7")) ("T1") ("T1")
           (some ()) none sampleFileState)
       = some { waitlist_datetime := ("T1")
                last_updated := ("T1")
                waitlist_position := PosnVal.s ("7") }) :=
  ⟨rfl, rfl, rfl, by decide,
    spec_c1_changed ("7") 12 7 sampleRec (some ()) none tsSample ("T1")
      sampleFileState rfl rfl rfl (by decide)⟩

/-- C2: for every stored record with canonical (fixed-format) changed_at
whose position parses as integer p, and an observed position parsing to the
same p, `compare_waitlist_posns` returns false and persists a record with
the same position, the same changed_at (re-parsed and re-rendered
losslessly), and checked_at set to this pass's now. -/
theorem spec_c2_unchanged (posn : String) (p : Int) (d0 : UTCDatetime)
    (r : WlRecord) (file_path s3o : Option Unit) (nowLoad dt_now : String)
    (st : ProcState)
    (hget : backendGet file_path.isSome st = some r)
    (hp1 : pyIntVal r.waitlist_position = some p)
    (hp2 : pyInt posn = some p)
    (hts : r.waitlist_datetime = strftimeDT d0)
    (hvalid : validDT d0 = true) :
    compare_waitlist_posns posn file_path s3o nowLoad dt_now st
      = Except.ok (false,
          save_waitlist_posn r.waitlist_position r.waitlist_datetime dt_now
            file_path s3o st) ∧
    backendGet file_path.isSome
        (save_waitlist_posn r.waitlist_position r.waitlist_datetime dt_now
          file_path s3o st)
      = some { waitlist_datetime := r.waitlist_datetime
               last_updated := dt_now
               waitlist_position := r.waitlist_position } := by
  refine ⟨?_, backendGet_save _ _ _ _ _ _⟩
  have hload := get_saved_of_backendGet_some file_path s3o nowLoad st r hget
  have hpt : strptimeDT r.waitlist_datetime = some d0 := by
    rw [hts]; exact strptimeDT_strftimeDT d0 hvalid
  unfold compare_waitlist_posns
  rw [hload]
  simp [hp2, hp1, hpt, hts, strptimeDT_strftimeDT d0 hvalid]

/-- C2 witness: stored position "12" with a canonical timestamp, observed
"12" again; checked_at moves to the new now, changed_at stays. -/
theorem spec_c2_unchanged_witness :
    backendGet (some () : Option Unit).isSome sampleFileState = some sampleRec ∧
    pyIntVal sampleRec.waitlist_position = some 12 ∧
    pyInt ("12") = some 12 ∧
    sampleRec.waitlist_datetime = strftimeDT dtSample ∧
    validDT dtSample = true ∧
    (compare_waitlist_posns ("12") (some ()) none tsSample ("T1")
        sampleFileState
       = Except.ok (false,
           save_waitlist_posn sampleRec.waitlist_position
             sampleRec.waitlist_datetime ("T1") (some ()) none
             sampleFileState) ∧
     backendGet (some () : Option Unit).isSome
         (save_waitlist_posn sampleRec.waitlist_position
           sampleRec.waitlist_datetime ("T1") (some ()) none sampleFileState)
       = some { waitlist_datetime := sampleRec.waitlist_datetime
                last_updated := ("T1")
                waitlist_position := sampleRec.waitlist_position }) :=
  ⟨rfl, rfl, rfl, rfl, by decide,
    spec_c2_unchanged ("12") 12 dtSample sampleRec (some ()) none tsSample
      ("T1") sampleFileState rfl rfl rfl rfl (by decide)⟩

/-- C3: when the observed position does not parse as an integer and the
load step itself succeeded, `compare_waitlist_posns` raises ValueError
before any write: the run ends in a state whose backends are exactly the
initial ones. -/
theorem spec_c3_parse_error (posn : String) (file_path s3o : Option Unit)
    (nowLoad dt_now : String) (st : ProcState) (wl : WlRecord)
    (st1 : ProcState)
    (hload : get_saved_waitlist_data file_path s3o nowLoad st
      = Except.ok (wl, st1))
    (hbad : pyInt posn = none) :
    compare_waitlist_posns posn file_path s3o nowLoad dt_now st
      = Except.error (PyErr.valueError, st1) ∧
    st1.backends = st.backends := by
  refine ⟨?_, get_saved_preserves_backends file_path s3o nowLoad st wl st1 hload⟩
  unfold compare_waitlist_posns
  rw [hload]
  simp [hbad]

/-- C3 witness: observed text "abc" against a populated file backend. -/
theorem spec_c3_parse_error_witness :
    get_saved_waitlist_data (some ()) none tsSample sampleFileState
      = Except.ok (sampleRec, sampleFileState) ∧
    pyInt ("abc") = none ∧
    (compare_waitlist_posns ("abc") (some ()) none tsSample ("T1")
        sampleFileState
       = Except.error (PyErr.valueError, sampleFileState) ∧
     sampleFileState.backends = sampleFileState.backends) :=
  ⟨rfl, rfl,
    spec_c3_parse_error ("abc") (some ()) none tsSample ("T1")
      sampleFileState sampleRec sampleFileState rfl rfl⟩

/-- C4 counterexample: against the bucket backend with the object key
absent, the code does not synthesize the default record — the missing-
object ClientError of the S3 get propagates — so reconciling an empty
bucket backend with observed position "5" does not return changed = true.
(The spec claims both backends synthesize a default with position -1.) -/
theorem spec_c4_cex :
    get_saved_waitlist_data none (some ()) ("T0") freshState
      = Except.error (PyErr.clientError, freshState) ∧
    compare_waitlist_posns ("5") none (some ()) ("T0") ("T1") freshState
      = Except.error (PyErr.clientError, freshState) :=
  ⟨rfl, rfl⟩

/-- C4 amended: only the FILE backend synthesizes the default record
(position -1, both timestamps the load-time now) when no prior record
exists; reconciling an empty file backend with observed "5" then returns
changed = true and persists position "5".  The bucket backend instead
propagates the missing-object fault (see the counterexample). -/
theorem spec_c4_amended (s3o : Option Unit) (nowLoad dt_now : String)
    (st : ProcState)
    (hfile : st.backends.file = none)
    (hdef : st.defaultDict.waitlist_position = PosnVal.i (-1)) :
    get_saved_waitlist_data (some ()) s3o nowLoad st
      = Except.ok
          ({ st.defaultDict with
               waitlist_datetime := nowLoad
               last_updated := nowLoad },
           { st with defaultDict :=
               { st.defaultDict with
                   waitlist_datetime := nowLoad
                   last_updated := nowLoad } }) ∧
    compare_waitlist_posns ("5") (some ()) s3o nowLoad dt_now st
      = Except.ok (true,
          { st with
              defaultDict :=
                { st.defaultDict with
                    waitlist_datetime := nowLoad
                    last_updated := nowLoad }
              backends :=
                { st.backends with
                    file := some
                      { waitlist_datetime := dt_now
                        last_updated := dt_now
                        waitlist_position := PosnVal.s ("5") } } }) := by
  constructor
  · simp [get_saved_waitlist_data, hfile]
  · unfold compare_waitlist_posns
    simp [get_saved_waitlist_data, hfile, hdef, save_waitlist_posn, pyIntVal,
      show pyInt ("5") = some 5 from rfl,
      show ((5 : Int) = -1) = False from by simp]

/-- C4 amended witness: a fresh process (file absent, default untouched). -/
theorem spec_c4_amended_witness :
    freshState.backends.file = none ∧
    freshState.defaultDict.waitlist_position = PosnVal.i (-1) ∧
    (get_saved_waitlist_data (some ()) none ("T0") freshState
       = Except.ok
           ({ freshState.defaultDict with
                waitlist_datetime := ("T0")
                last_updated := ("T0") },
            { freshState with defaultDict :=
                { freshState.defaultDict with
                    waitlist_datetime := ("T0")
                    last_updated := ("T0") } }) ∧
     compare_waitlist_posns ("5") (some ()) none ("T0") ("T1") freshState
       = Except.ok (true,
           { freshState with
               defaultDict :=
                 { freshState.defaultDict with
                     waitlist_datetime := ("T0")
                     last_updated := ("T0") }
               backends :=
                 { freshState.backends with
                     file := some
                       { waitlist_datetime := ("T1")
                         last_updated := ("T1")
                         waitlist_position := PosnVal.s ("5") } } })) :=
  ⟨rfl, rfl, spec_c4_amended none ("T0") ("T1") freshState rfl rfl⟩

/-- C5 counterexample: the record the changed path persists carries the
observed text, so its serialized `waitlist_position` value is a JSON
string, not an integer, refuting the claim that the persisted position
field is an integer. -/
theorem spec_c5_cex :
    compare_waitlist_posns ("5") (some ()) none ("T0") ("T1") sampleFileState
      = Except.ok (true,
          { backends :=
              { file := some
                  { waitlist_datetime := ("T1")
                    last_updated := ("T1")
                    waitlist_position := PosnVal.s ("5") }
                s3 := none }
            defaultDict := DEFAULT_WL_DICT }) ∧
    lookupJv ("waitlist_position")
        (serializeRecord
          { waitlist_datetime := ("T1")
            last_updated := ("T1")
            waitlist_position := PosnVal.s ("5") })
      = some (Jv.jstr ("5")) ∧
    (lookupJv ("waitlist_position")
        (serializeRecord
          { waitlist_datetime := ("T1")
            last_updated := ("T1")
            waitlist_position := PosnVal.s ("5") })).map isIntJv
      = some false :=
  ⟨rfl, rfl, rfl⟩

/-- C5 amended: the serialized body holds exactly the three keys; the two
timestamp fields are strings; the position field is serialized as the value
the reconciler stored (the scraped text, a string, on the changed path; the
previously stored value on the unchanged path) rather than always an
integer; and serialization round-trips losslessly in all three fields. -/
theorem spec_c5_amended (r : WlRecord) :
    (serializeRecord r).map Prod.fst
      = [("waitlist_datetime"), ("last_updated"), ("waitlist_position")] ∧
    lookupJv ("waitlist_datetime") (serializeRecord r)
      = some (Jv.jstr r.waitlist_datetime) ∧
    lookupJv ("last_updated") (serializeRecord r)
      = some (Jv.jstr r.last_updated) ∧
    lookupJv ("waitlist_position") (serializeRecord r)
      = some (jvOfPosn r.waitlist_position) ∧
    deserializeRecord (serializeRecord r) = some r := by
  obtain ⟨wd, lu, p⟩ := r
  cases p <;> exact ⟨rfl, rfl, rfl, rfl, rfl⟩

/-- C6: for every valid UTC datetime, formatting with DT_FORMAT, parsing
the text back with strptime and re-formatting with strftime yields the
identical text (microseconds and UTC offset included), so changed_at
survives storage round trips losslessly for equality comparison. -/
theorem spec_c6_roundtrip (d : UTCDatetime) (h : validDT d = true) :
    strptimeDT (strftimeDT d) = some d ∧
    (strptimeDT (strftimeDT d)).map strftimeDT = some (strftimeDT d) := by
  have h1 := strptimeDT_strftimeDT d h
  exact ⟨h1, by rw [h1]; rfl⟩

/-- C6 witness: a concrete datetime with microseconds. -/
theorem spec_c6_roundtrip_witness :
    validDT dtSample = true ∧
    (strptimeDT (strftimeDT dtSample) = some dtSample ∧
     (strptimeDT (strftimeDT dtSample)).map strftimeDT
       = some (strftimeDT dtSample)) :=
  ⟨by decide, spec_c6_roundtrip dtSample (by decide)⟩

/-- C7 counterexample: two faults that ARE swallowed, refuting the claim
that no exception is swallowed anywhere in the pipeline.  A missing secret
(`ResourceNotFoundException`) is caught by `get_secret` and turned into a
NORMAL return of a message string in place of the secret, and a login
timeout (`TimeoutException`) is caught by `_check_logged_in` and turned
into a False return; neither aborts the poll. -/
theorem spec_c7_cex :
    get_secret ("mtlockeyer-aws-secrets") SecretResponse.resourceNotFound
      = Except.ok
          ("The requested secret mtlockeyer-aws-secrets was not found.") ∧
    _check_logged_in true = false :=
  ⟨rfl, rfl⟩

/-- C7 amended: reconciler faults do propagate to the invoking layer and
abort the poll — an unparseable observed position raises ValueError, a
missing S3 object raises ClientError, and an unrecognized secret-manager
fault is re-raised — but a missing secret is swallowed into a normal
message-string return and a login timeout is swallowed into a False
return. -/
theorem spec_c7_amended :
    (∀ name : String,
        get_secret name SecretResponse.otherFailure
          = Except.error PyErr.unknownError) ∧
    (∀ name : String,
        get_secret name SecretResponse.resourceNotFound
          = Except.ok
              (("The requested secret ") ++ name ++ (" was not found."))) ∧
    (_check_logged_in true = false) ∧
    (∀ (posn nowLoad dt_now : String) (s3o : Option Unit) (st : ProcState),
        st.backends.s3 = none →
        compare_waitlist_posns posn none s3o nowLoad dt_now st
          = Except.error (PyErr.clientError, st)) ∧
    (∀ (posn nowLoad dt_now : String) (fp s3o : Option Unit)
        (st : ProcState) (wl : WlRecord) (st1 : ProcState),
        get_saved_waitlist_data fp s3o nowLoad st = Except.ok (wl, st1) →
        pyInt posn = none →
        compare_waitlist_posns posn fp s3o nowLoad dt_now st
          = Except.error (PyErr.valueError, st1)) := by
  refine ⟨fun _ => rfl, fun _ => rfl, rfl, ?_, ?_⟩
  · intro posn nowLoad dt_now s3o st hs3
    unfold compare_waitlist_posns get_saved_waitlist_data
    simp [hs3]
  · intro posn nowLoad dt_now fp s3o st wl st1 hload hbad
    unfold compare_waitlist_posns
    rw [hload]
    simp [hbad]

/-- C7 amended witness: concrete instances of the quantified parts. -/
theorem spec_c7_amended_witness :
    (get_secret ("n") SecretResponse.otherFailure
       = Except.error PyErr.unknownError) ∧
    freshState.backends.s3 = none ∧
    (compare_waitlist_posns ("5") none (some ()) ("T0") ("T1") freshState
       = Except.error (PyErr.clientError, freshState)) ∧
    (get_saved_waitlist_data (some ()) none ("T0") sampleFileState
       = Except.ok (sampleRec, sampleFileState)) ∧
    pyInt ("abc") = none ∧
    (compare_waitlist_posns ("abc") (some ()) none ("T0") ("T1")
        sampleFileState
       = Except.error (PyErr.valueError, sampleFileState)) :=
  ⟨spec_c7_amended.1 ("n"), rfl,
    spec_c7_amended.2.2.2.1 ("5") ("T0") ("T1") (some ()) freshState rfl,
    rfl, rfl,
    spec_c7_amended.2.2.2.2 ("abc") ("T0") ("T1") (some ()) none
      sampleFileState sampleRec sampleFileState rfl rfl⟩

/-- C8: when the stored file is absent, `get_saved_waitlist_data` assigns
the module-level default dictionary itself (not a copy) and mutates its two
timestamp fields in place: afterwards the shared constant (the
`defaultDict` component of the process state) no longer equals its initial
value `DEFAULT_WL_DICT`, and a later call that takes the default path in
the same process starts from that same mutated dictionary (its position
field carried over, its timestamps overwritten again). -/
theorem spec_c8_default_mutation (s3o : Option Unit) (nowLoad now2 : String)
    (st : ProcState)
    (hfile : st.backends.file = none)
    (hdef : st.defaultDict = DEFAULT_WL_DICT)
    (hnow : nowLoad ≠ ("")) :
    get_saved_waitlist_data (some ()) s3o nowLoad st
      = Except.ok (mutatedDefault nowLoad,
          { st with defaultDict := mutatedDefault nowLoad }) ∧
    ({ st with defaultDict := mutatedDefault nowLoad }).defaultDict
      = mutatedDefault nowLoad ∧
    mutatedDefault nowLoad ≠ DEFAULT_WL_DICT ∧
    (mutatedDefault nowLoad).waitlist_position
      = DEFAULT_WL_DICT.waitlist_position ∧
    get_saved_waitlist_data (some ()) s3o now2
        { st with defaultDict := mutatedDefault nowLoad }
      = Except.ok (mutatedDefault now2,
          { st with defaultDict := mutatedDefault now2 }) := by
  refine ⟨?_, rfl, ?_, rfl, ?_⟩
  · simp [get_saved_waitlist_data, hfile, hdef, mutatedDefault,
      DEFAULT_WL_DICT]
  · intro hEq
    apply hnow
    have := congrArg WlRecord.waitlist_datetime hEq
    simpa [mutatedDefault, DEFAULT_WL_DICT] using this
  · simp [get_saved_waitlist_data, hfile, mutatedDefault, DEFAULT_WL_DICT]

/-- C8 witness: a fresh process and two concrete load-time timestamps. -/
theorem spec_c8_default_mutation_witness :
    freshState.backends.file = none ∧
    freshState.defaultDict = DEFAULT_WL_DICT ∧
    ("T0" : String) ≠ ("") ∧
    (get_saved_waitlist_data (some ()) none ("T0") freshState
       = Except.ok (mutatedDefault ("T0"),
           { freshState with defaultDict := mutatedDefault ("T0") }) ∧
     ({ freshState with defaultDict := mutatedDefault ("T0") }).defaultDict
       = mutatedDefault ("T0") ∧
     mutatedDefault ("T0") ≠ DEFAULT_WL_DICT ∧
     (mutatedDefault ("T0")).waitlist_position
       = DEFAULT_WL_DICT.waitlist_position ∧
     get_saved_waitlist_data (some ()) none ("T2")
         { freshState with defaultDict := mutatedDefault ("T0") }
       = Except.ok (mutatedDefault ("T2"),
           { freshState with defaultDict := mutatedDefault ("T2") })) :=
  ⟨rfl, rfl, by decide,
    spec_c8_default_mutation none ("T0") ("T2") freshState rfl rfl
      (by decide)⟩

/-- When a file path is supplied, `compare_waitlist_posns` factors through
`fileCompare` on the file view: its whole behavior is a function of the
file slot and the default dictionary, grafted back with the S3 slot
untouched. -/
theorem compare_file_view (posn : String) (s3o : Option Unit)
    (nowLoad dt_now : String) (st : ProcState) :
    compare_waitlist_posns posn (some ()) s3o nowLoad dt_now st
      = mapViewRes st (fileCompare posn nowLoad dt_now (viewOf st)) := by
  obtain ⟨⟨f0, s30⟩, dd⟩ := st
  unfold compare_waitlist_posns get_saved_waitlist_data save_waitlist_posn
    fileCompare viewOf mapViewRes withView
  cases f0 with
  | none =>
      cases hp : pyInt posn with
      | none => simp [hp]
      | some pN =>
          cases hv : pyIntVal dd.waitlist_position with
          | none => simp [hp, hv]
          | some pO =>
              by_cases hch : pN = pO
              · cases hst : strptimeDT nowLoad with
                | none => simp [hp, hv, hch, hst]
                | some dd0 => simp [hp, hv, hch, hst]
              · simp [hp, hv, hch]
  | some r =>
      cases hp : pyInt posn with
      | none => simp [hp]
      | some pN =>
          cases hv : pyIntVal r.waitlist_position with
          | none => simp [hp, hv]
          | some pO =>
              by_cases hch : pN = pO
              · cases hst : strptimeDT r.waitlist_datetime with
                | none => simp [hp, hv, hch, hst]
                | some dd0 => simp [hp, hv, hch, hst]
              · simp [hp, hv, hch]

/-- C9: when both a file path and an S3 bucket/object pair are supplied,
the file backend is used for both the load and the store, and the S3
backend is never read or written: the call behaves exactly as with no S3
argument, the S3 slot of the resulting state equals the initial one, and
the whole outcome is independent of the S3 slot's contents (the run on a
state with any other S3 contents is the same run with that slot carried
through untouched). -/
theorem spec_c9_file_backend_wins (posn nowLoad dt_now : String)
    (st : ProcState) (x : Option WlRecord) :
    compare_waitlist_posns posn (some ()) (some ()) nowLoad dt_now st
      = compare_waitlist_posns posn (some ()) none nowLoad dt_now st ∧
    (stateOf (compare_waitlist_posns posn (some ()) (some ()) nowLoad dt_now
        st)).backends.s3
      = st.backends.s3 ∧
    compare_waitlist_posns posn (some ()) (some ()) nowLoad dt_now
        (setS3 x st)
      = mapStateRes (setS3 x)
          (compare_waitlist_posns posn (some ()) (some ()) nowLoad dt_now
            st) := by
  refine ⟨rfl, ?_, ?_⟩
  · rw [compare_file_view posn (some ()) nowLoad dt_now st]
    cases h : fileCompare posn nowLoad dt_now (viewOf st) with
    | error e =>
        obtain ⟨e1, v⟩ := e
        simp [mapViewRes, stateOf, withView]
    | ok b =>
        obtain ⟨b1, v⟩ := b
        simp [mapViewRes, stateOf, withView]
  · rw [compare_file_view posn (some ()) nowLoad dt_now (setS3 x st),
      compare_file_view posn (some ()) nowLoad dt_now st]
    have hview : viewOf (setS3 x st) = viewOf st := rfl
    rw [hview]
    cases h : fileCompare posn nowLoad dt_now (viewOf st) with
    | error e =>
        obtain ⟨e1, v⟩ := e
        simp [mapViewRes, mapStateRes, setS3, withView]
    | ok b =>
        obtain ⟨b1, v⟩ := b
        simp [mapViewRes, mapStateRes, setS3, withView]

/-- C10: whenever the reconciliation step of `lambda_handler` completes
and returns its single boolean, the handler's unpacking of that boolean
into two names raises a TypeError, so the run aborts before the comparison
result is used or any notification is sent. -/
theorem spec_c10_unpack_typeerror (wl_posn nowLoad dt_now : String)
    (st : ProcState) (b : Bool) (st1 : ProcState)
    (h : compare_waitlist_posns wl_posn none (some ()) nowLoad dt_now st
      = Except.ok (b, st1)) :
    lambda_handler wl_posn nowLoad dt_now st
      = Except.error (PyErr.typeError, st1) := by
  unfold lambda_handler
  rw [h]
  rfl

/-- C10 witness: an S3 backend holding position "12", observed "5": the
reconciliation succeeds (and writes), then the unpacking raises. -/
theorem spec_c10_unpack_typeerror_witness :
    compare_waitlist_posns ("5") none (some ()) ("T0") ("T1") sampleS3State
      = Except.ok (true,
          { backends :=
              { file := none
                s3 := some
                  { waitlist_datetime := ("T1")
                    last_updated := ("T1")
                    waitlist_position := PosnVal.s ("5") } }
            defaultDict := DEFAULT_WL_DICT }) ∧
    lambda_handler ("5") ("T0") ("T1") sampleS3State
      = Except.error (PyErr.typeError,
          { backends :=
              { file := none
                s3 := some
                  { waitlist_datetime := ("T1")
                    last_updated := ("T1")
                    waitlist_position := PosnVal.s ("5") } }
            defaultDict := DEFAULT_WL_DICT }) :=
  ⟨rfl,
    spec_c10_unpack_typeerror ("5") ("T0") ("T1") sampleS3State true
      { backends :=
          { file := none
            s3 := some
              { waitlist_datetime := ("T1")
                last_updated := ("T1")
                waitlist_position := PosnVal.s ("5") } }
        defaultDict := DEFAULT_WL_DICT } rfl⟩
